import Mathlib

/-!
Shallow embedding of the STEM graduation-rate prediction pipelines of the
repository `linear_regression_model`, covering `src/API/main.py` (namespace
`MainAPI`) and `src/API/prediction.py` (namespace `Service`), together with a
model of scikit-learn's `LabelEncoder` and `StandardScaler` as used by both.

Python floats are modelled as `Rat`: every operation the claims depend on
(range comparison, min/max clamping, affine scaling, rounding to two decimal
places) is exact on the decimal constants appearing in the source.  The
regressor artifact is not part of the repository, so pipelines are
parametrised by an arbitrary function `m : List Rat → Rat` standing for
`model.predict`.
-/

namespace LinRegModel

/-- Lexicographic order on strings as numpy compares them: by the sequence
of characters.  (Stated on `String.data` so that it is decidable by
structural recursion.) -/
def strle (a b : String) : Prop := a.data ≤ b.data

/-- Strict lexicographic order on strings, by the sequence of characters. -/
def strlt (a b : String) : Prop := a.data < b.data

instance : DecidableRel strle := fun a b =>
  (inferInstance : Decidable (a.data ≤ b.data))

instance : DecidableRel strlt := fun a b =>
  (inferInstance : Decidable (a.data < b.data))

instance : IsTotal String strle := ⟨fun a b => le_total a.data b.data⟩

instance : IsTrans String strle := ⟨fun _ _ _ h h2 => le_trans h h2⟩

instance : IsAntisymm String strle :=
  ⟨fun _ _ h h2 => String.toList_inj.mp (le_antisymm h h2)⟩

/-- Model of `sklearn.preprocessing.LabelEncoder.fit`: `numpy.unique` of the
label list, i.e. the distinct labels sorted lexicographically. -/
def labelEncoderFit (labels : List String) : List String :=
  labels.dedup.insertionSort strle

/-- Model of `LabelEncoder.transform` on a single label: the zero-based index
of the label in the fitted classes, or `none` for a previously unseen label
(sklearn raises `ValueError` there). -/
def labelEncoderTransform (classes : List String) (v : String) : Option Nat :=
  if v ∈ classes then some (classes.indexOf v) else none

/-- Per-feature means of the `StandardScaler`, hard-coded in both
`main.py` (line 254) and `prediction.py` (line 78). -/
def scalerMean : List Rat := [2018.0, 50.0, 0.7, 5.0, 1.5]

/-- Per-feature scales of the `StandardScaler`, hard-coded in both
`main.py` (line 255) and `prediction.py` (line 79). -/
def scalerScale : List Rat := [5.0, 15.0, 0.15, 3.0, 1.2]

/-- `StandardScaler.transform`: element-wise `(x[i] - mean[i]) / scale[i]`. -/
def scalerTransform (v : List Rat) : List Rat :=
  (v.zip (scalerMean.zip scalerScale)).map (fun p => (p.1 - p.2.1) / p.2.2)

/-- Python's `round` to the nearest integer, ties to even (banker's
rounding), on an exact rational. -/
def roundHalfEven (x : Rat) : Int :=
  let f := ⌊x⌋
  let frac := x - f
  if frac < 1/2 then f
  else if 1/2 < frac then f + 1
  else if f % 2 = 0 then f else f + 1

/-- Python's `round(x, 2)`. -/
def pyRound2 (x : Rat) : Rat := (roundHalfEven (100 * x) : Rat) / 100

/-- Python `repr` of a list of strings, as interpolated by
`f"... Available: \x7bself.countries\x7d"` in `prediction.py`. -/
def pyListRepr (l : List String) : String :=
  "[" ++ String.intercalate ", " (l.map (fun s => "\x27" ++ s ++ "\x27")) ++ "]"

/-! ## `src/API/prediction.py` — `STEMPredictionService` -/

namespace Service

/-- `self.countries` (`prediction.py` lines 33-36). -/
def countries : List String :=
  ["Australia", "Canada", "China", "Germany", "India", "USA"]

/-- `self.stem_fields` (`prediction.py` lines 38-40). -/
def stem_fields : List String :=
  ["Biology", "Computer Science", "Engineering", "Mathematics"]

/-- `_load_model` (`prediction.py` lines 51-62): load from disk when the
artifact exists, otherwise raise `FileNotFoundError`. -/
inductive ModelSource
  | fromDisk
  | fallbackRandomFit
deriving DecidableEq

def load_model (modelFileExists : Bool) : Except String ModelSource :=
  if modelFileExists then .ok .fromDisk
  else .error "Model file not found: model/best_model.pkl"

def yearMsg : String := "Year must be between 2000 and 2030"

def enrollMsg : String := "Female enrollment percentage must be between 0 and 100"

def gapMsg : String := "Gender Gap Index must be between 0 and 1"

def countryMsg (c : String) : String :=
  "Country \x27" ++ c ++ "\x27 not supported. Available: " ++ pyListRepr countries

def fieldMsg (f : String) : String :=
  "STEM field \x27" ++ f ++ "\x27 not supported. Available: " ++ pyListRepr stem_fields

/-- `validate_input` (`prediction.py` lines 87-116): a chain of early
returns, first failing check wins. -/
def validate_input (year : Int) (female_enrollment gender_gap_index : Rat)
    (country stem_field : String) : Bool × String :=
  if ¬(2000 ≤ year ∧ year ≤ 2030) then (false, yearMsg)
  else if ¬(0 ≤ female_enrollment ∧ female_enrollment ≤ 100) then (false, enrollMsg)
  else if ¬(0 ≤ gender_gap_index ∧ gender_gap_index ≤ 1) then (false, gapMsg)
  else if country ∉ countries then (false, countryMsg country)
  else if stem_field ∉ stem_fields then (false, fieldMsg stem_field)
  else (true, "")

/-- `preprocess_input` (`prediction.py` lines 118-143): encode the two
categorical fields, assemble the feature vector in training order, scale. -/
def preprocess_input (year : Int) (female_enrollment gender_gap_index : Rat)
    (country stem_field : String) : Except String (List Rat × Nat × Nat) :=
  match labelEncoderTransform (labelEncoderFit countries) country with
  | none => .error ("y contains previously unseen labels: " ++ country)
  | some cc =>
    match labelEncoderTransform (labelEncoderFit stem_fields) stem_field with
    | none => .error ("y contains previously unseen labels: " ++ stem_field)
    | some fc =>
      .ok (scalerTransform
            [(year : Rat), female_enrollment, gender_gap_index, (cc : Rat), (fc : Rat)],
           cc, fc)

structure PredictResult where
  predicted_graduation_rate : Rat
  country_encoded : Nat
  stem_field_encoded : Nat
deriving DecidableEq

/-- `predict` (`prediction.py` lines 145-193): validate, preprocess, invoke
the regressor `m`, clamp to [0,100], round to 2 decimals. -/
def predict (m : List Rat → Rat) (year : Int)
    (female_enrollment gender_gap_index : Rat) (country stem_field : String) :
    Except String PredictResult :=
  let v := validate_input year female_enrollment gender_gap_index country stem_field
  if v.1 then
    match preprocess_input year female_enrollment gender_gap_index country stem_field with
    | .error msg => .error msg
    | .ok (scaled, cc, fc) =>
      let p := m scaled
      let p := max 0 (min 100 p)
      .ok { predicted_graduation_rate := pyRound2 p
            country_encoded := cc
            stem_field_encoded := fc }
  else .error v.2

end Service

/-! ## `src/API/main.py` -/

namespace MainAPI

/-- `COUNTRIES` (`main.py` lines 217-220). -/
def COUNTRIES : List String :=
  ["Australia", "Brazil", "Canada", "China", "France", "Germany", "India",
   "Japan", "South Korea", "United Kingdom", "United States"]

/-- `STEM_FIELDS` (`main.py` line 222). -/
def STEM_FIELDS : List String :=
  ["Biology", "Computer Science", "Engineering", "Mathematics"]

/-- The list local to the `validate_country` validator (`main.py` lines
141-144); the source duplicates `COUNTRIES` verbatim here. -/
def supported_countries : List String :=
  ["Australia", "Brazil", "Canada", "China", "France", "Germany", "India",
   "Japan", "South Korea", "United Kingdom", "United States"]

/-- The list local to the `validate_stem_field` validator (`main.py` line 156). -/
def supported_fields : List String :=
  ["Biology", "Computer Science", "Engineering", "Mathematics"]

def countryErrMsg (v : String) : String :=
  "Country \x27" ++ v ++ "\x27 is not supported. Supported countries: " ++
    String.intercalate ", " supported_countries ++
    ". Use the /countries endpoint to get the complete list."

def fieldErrMsg (v : String) : String :=
  "STEM field \x27" ++ v ++ "\x27 is not supported. Supported fields: " ++
    String.intercalate ", " supported_fields ++
    ". Use the /stem-fields endpoint to get the complete list."

/-- Pydantic `@validator` for `country` (`main.py` lines 138-151). -/
def validate_country (v : String) : Except String String :=
  if v ∉ supported_countries then .error (countryErrMsg v) else .ok v

/-- Pydantic `@validator` for `stem_field` (`main.py` lines 153-163). -/
def validate_stem_field (v : String) : Except String String :=
  if v ∉ supported_fields then .error (fieldErrMsg v) else .ok v

/-- A raw request body before Pydantic validation. -/
structure RawRequest where
  year : Int
  female_enrollment_percent : Rat
  gender_gap_index : Rat
  country : String
  stem_field : String

/-- One Pydantic field-validation error of the `PredictionInput` model. -/
inductive FieldError
  | yearRange (got : Int)
  | enrollmentRange (got : Rat)
  | gapIndexRange (got : Rat)
  | valueError (field msg : String)
deriving DecidableEq

/-- Pydantic validation of `PredictionInput` (`main.py` lines 94-174):
each field is validated independently (`ge`/`le` bounds on the numeric
fields, the two `@validator`s on the categorical fields) and all failures
are collected. -/
def pydanticValidate (r : RawRequest) : List FieldError :=
  (if 2000 ≤ r.year ∧ r.year ≤ 2030 then [] else [.yearRange r.year]) ++
  (if 0 ≤ r.female_enrollment_percent ∧ r.female_enrollment_percent ≤ 100 then []
   else [.enrollmentRange r.female_enrollment_percent]) ++
  (if 0 ≤ r.gender_gap_index ∧ r.gender_gap_index ≤ 1 then []
   else [.gapIndexRange r.gender_gap_index]) ++
  (match validate_country r.country with
   | .ok _ => []
   | .error msg => [.valueError "country" msg]) ++
  (match validate_stem_field r.stem_field with
   | .ok _ => []
   | .error msg => [.valueError "stem_field" msg])

/-- `confidence_score` computation (`main.py` lines 577-582): start at
"high", two independent overwrites to "medium". -/
def confidence_score (year : Int) (gender_gap_index : Rat) : String :=
  let c := "high"
  let c := if 2025 < year then "medium" else c
  let c := if gender_gap_index < 0.5 then "medium" else c
  c

inductive HandlerError
  | invalidCountry (v : String) (supported : List String)
  | invalidField (v : String) (supported : List String)
  | predictionFailed (details : String)
deriving DecidableEq

structure Output where
  predicted_graduation_rate : Rat
  country_encoded : Nat
  stem_field_encoded : Nat
  model_confidence : String
  country_name : String
  stem_field_name : String
deriving DecidableEq

/-- The `/predict` handler body (`main.py` lines 530-612), reached only
after Pydantic validation: re-check category membership against
`COUNTRIES`/`STEM_FIELDS`, encode, assemble, scale, invoke the regressor,
clamp, round, attach the confidence label. -/
def predict_graduation_rate (m : List Rat → Rat) (r : RawRequest) :
    Except HandlerError Output :=
  if r.country ∉ COUNTRIES then
    .error (.invalidCountry r.country COUNTRIES)
  else if r.stem_field ∉ STEM_FIELDS then
    .error (.invalidField r.stem_field STEM_FIELDS)
  else
    match labelEncoderTransform (labelEncoderFit COUNTRIES) r.country,
          labelEncoderTransform (labelEncoderFit STEM_FIELDS) r.stem_field with
    | some cc, some fc =>
      let features : List Rat :=
        [(r.year : Rat), r.female_enrollment_percent, r.gender_gap_index,
         (cc : Rat), (fc : Rat)]
      let scaled := scalerTransform features
      let p := m scaled
      let p := max 0 (min 100 p)
      .ok { predicted_graduation_rate := pyRound2 p
            country_encoded := cc
            stem_field_encoded := fc
            model_confidence := confidence_score r.year r.gender_gap_index
            country_name := r.country
            stem_field_name := r.stem_field }
    | _, _ => .error (.predictionFailed "y contains previously unseen labels")

inductive EndpointError
  | validationErrors (errs : List FieldError)
  | handler (e : HandlerError)
deriving DecidableEq

/-- The full `/predict` request path: FastAPI runs Pydantic validation of
the body first and returns 422 with the collected field errors; only a
fully valid body reaches the handler. -/
def endpoint (m : List Rat → Rat) (r : RawRequest) : Except EndpointError Output :=
  match pydanticValidate r with
  | [] =>
    match predict_graduation_rate m r with
    | .ok o => .ok o
    | .error e => .error (.handler e)
  | errs => .error (.validationErrors errs)

/-- `load_model_and_encoders` (`main.py` lines 224-261): if the artifact
exists it is loaded from disk; otherwise an `SGDRegressor` freshly fitted on
random dummy data is substituted (lines 235-242). -/
def load_model_and_encoders (modelFileExists : Bool) : Service.ModelSource :=
  if modelFileExists then .fromDisk else .fallbackRandomFit

/-- The four component flags reported by `/health` (`main.py` lines 334-339). -/
structure Components where
  model_loaded : Bool
  country_encoder_ready : Bool
  field_encoder_ready : Bool
  scaler_ready : Bool
deriving DecidableEq

/-- `ready_for_predictions` (`main.py` lines 347-352). -/
def ready_for_predictions (c : Components) : Bool :=
  c.model_loaded && c.country_encoder_ready && c.field_encoder_ready && c.scaler_ready

/-- The overall status computed by `health_check` (`main.py` lines 330-361):
it starts as "healthy" and is overwritten to "degraded" exactly when
`ready_for_predictions` is false. -/
def health_check (c : Components) : String :=
  let status := "healthy"
  if ready_for_predictions c then status else "degraded"

/-- Component state after `load_model_and_encoders` returns, whether or not
the artifact file existed: both branches assign `model` (line 232 or lines
238-242), and the encoders and scaler are always constructed (lines 244-255),
so every global is non-`None`. -/
def components_after_startup (_modelFileExists : Bool) : Components :=
  { model_loaded := true
    country_encoder_ready := true
    field_encoder_ready := true
    scaler_ready := true }

end MainAPI

/-! ## General lemmas about the encoder model -/

theorem labelEncoderFit_sorted (s : List String) : (labelEncoderFit s).Sorted strle :=
  List.sorted_insertionSort _ _

theorem labelEncoderFit_perm (s : List String) : (labelEncoderFit s).Perm s.dedup :=
  List.perm_insertionSort _ _

theorem labelEncoderFit_nodup (s : List String) : (labelEncoderFit s).Nodup :=
  ((labelEncoderFit_perm s).nodup_iff).mpr s.nodup_dedup

theorem mem_labelEncoderFit {s : List String} {v : String} :
    v ∈ labelEncoderFit s ↔ v ∈ s :=
  (labelEncoderFit_perm s).mem_iff.trans List.mem_dedup

theorem strlt_of_strle_of_ne {a b : String} (h : strle a b) (hne : a ≠ b) :
    strlt a b :=
  lt_of_le_of_ne h (fun e => hne (String.toList_inj.mp e))

theorem labelEncoderFit_sorted_strlt (s : List String) :
    (labelEncoderFit s).Sorted strlt :=
  ((labelEncoderFit_sorted s).and (labelEncoderFit_nodup s)).imp
    (fun h => strlt_of_strle_of_ne h.1 h.2)

theorem strlt_irrefl (a : String) : ¬ strlt a a := lt_irrefl a.data

theorem strlt_asymm {a b : String} (h : strlt a b) : ¬ strlt b a :=
  lt_asymm h

/-- In a strictly sorted list, the index of a member equals the number of
entries strictly below it: codes are assigned by alphabetical rank. -/
theorem indexOf_sorted_eq_countP :
    ∀ {l : List String}, l.Sorted strlt → ∀ {v : String}, v ∈ l →
      l.indexOf v = l.countP (fun w => decide (strlt w v)) := by
  intro l
  induction l with
  | nil => intro _ v hv; cases hv
  | cons a t ih =>
    intro hs v hv
    have hrel := List.rel_of_sorted_cons hs
    have hst : t.Sorted strlt := hs.of_cons
    rcases List.mem_cons.mp hv with rfl | hvt
    · rw [List.indexOf_cons_self]
      have h0 : t.countP (fun w => decide (strlt w v)) = 0 := by
        rw [List.countP_eq_zero]
        intro w hw
        simpa using strlt_asymm (hrel w hw)
      rw [List.countP_cons_of_neg, h0]
      simpa using strlt_irrefl v
    · have hav : a ≠ v := by
        intro e; exact strlt_irrefl v (e ▸ hrel v hvt)
      rw [List.indexOf_cons_ne _ hav, List.countP_cons_of_pos, ih hst hvt]
      simpa using hrel v hvt

theorem labelEncoderFit_perm_eq {s s' : List String} (h : s.Perm s') :
    labelEncoderFit s = labelEncoderFit s' :=
  List.eq_of_perm_of_sorted
    ((labelEncoderFit_perm s).trans (h.dedup.trans (labelEncoderFit_perm s').symm))
    (labelEncoderFit_sorted s) (labelEncoderFit_sorted s')

theorem labelEncoderTransform_eq_some {s : List String} {v : String} (hv : v ∈ s) :
    labelEncoderTransform (labelEncoderFit s) v =
      some ((labelEncoderFit s).indexOf v) := by
  unfold labelEncoderTransform
  rw [if_pos (mem_labelEncoderFit.mpr hv)]

/-! ## Bounds of clamping and rounding -/

theorem floor_le_roundHalfEven (x : Rat) : ⌊x⌋ ≤ roundHalfEven x := by
  simp only [roundHalfEven]
  split_ifs <;> omega

theorem roundHalfEven_le_floor_add_one (x : Rat) : roundHalfEven x ≤ ⌊x⌋ + 1 := by
  simp only [roundHalfEven]
  split_ifs <;> omega

theorem pyRound2_clamp_bounds (p : Rat) :
    0 ≤ pyRound2 (max 0 (min 100 p)) ∧ pyRound2 (max 0 (min 100 p)) ≤ 100 := by
  set q := max 0 (min 100 p) with hq
  have hq0 : (0 : Rat) ≤ q := le_max_left _ _
  have hq100 : q ≤ 100 := max_le (by norm_num) (min_le_left _ _)
  have hlow : (0 : Int) ≤ roundHalfEven (100 * q) := by
    refine le_trans ?_ (floor_le_roundHalfEven _)
    exact Int.floor_nonneg.mpr (by positivity)
  have hhigh : roundHalfEven (100 * q) ≤ 10000 := by
    have hfl : ⌊(100 : Rat) * q⌋ ≤ 10000 := by
      have : (100 : Rat) * q ≤ 10000 := by nlinarith
      calc ⌊(100 : Rat) * q⌋ ≤ ⌊(10000 : Rat)⌋ := Int.floor_le_floor this
        _ = 10000 := by norm_num
    rcases lt_or_eq_of_le hfl with hlt | heq
    · have := roundHalfEven_le_floor_add_one ((100 : Rat) * q)
      omega
    · have hge : (10000 : Rat) ≤ 100 * q := by
        have := Int.floor_le ((100 : Rat) * q)
        rw [heq] at this
        exact_mod_cast this
      have hqe : (100 : Rat) * q = 10000 := by nlinarith
      rw [hqe]
      simp only [roundHalfEven]
      norm_num
  constructor
  · unfold pyRound2
    positivity
  · unfold pyRound2
    rw [div_le_iff₀ (by norm_num : (0:Rat) < 100)]
    calc (roundHalfEven (100 * q) : Rat) ≤ (10000 : Int) := by exact_mod_cast hhigh
      _ = 100 * 100 := by norm_num

/-! ## Helper lemmas about the two pipelines -/

/-- A validated country/field pair always encodes, so the handler body of
`/predict` reaches the regressor and returns a result. -/
theorem MainAPI.handler_ok (m : List Rat → Rat) (req : MainAPI.RawRequest)
    (hc : req.country ∈ MainAPI.COUNTRIES) (hf : req.stem_field ∈ MainAPI.STEM_FIELDS) :
    ∃ o, MainAPI.predict_graduation_rate m req = .ok o := by
  unfold MainAPI.predict_graduation_rate
  rw [if_neg (by simpa using hc), if_neg (by simpa using hf)]
  rw [labelEncoderTransform_eq_some hc, labelEncoderTransform_eq_some hf]
  exact ⟨_, rfl⟩

/-- If `validate_input` succeeds then all five constraints hold. -/
theorem Service.validate_input_true_iff (year : Int) (fe gg : Rat) (c f : String) :
    (Service.validate_input year fe gg c f).1 = true ↔
      ((2000 ≤ year ∧ year ≤ 2030) ∧ (0 ≤ fe ∧ fe ≤ 100) ∧ (0 ≤ gg ∧ gg ≤ 1) ∧
       c ∈ Service.countries ∧ f ∈ Service.stem_fields) := by
  unfold Service.validate_input
  split_ifs with h1 h2 h3 h4 h5 <;> simp_all

/-- A request that passes `validate_input` produces a prediction for any
regressor. -/
theorem Service.predict_ok (m : List Rat → Rat) (year : Int) (fe gg : Rat)
    (c f : String) (hv : (Service.validate_input year fe gg c f).1 = true) :
    ∃ r, Service.predict m year fe gg c f = .ok r := by
  obtain ⟨-, -, -, hc, hf⟩ := (Service.validate_input_true_iff year fe gg c f).mp hv
  unfold Service.predict Service.preprocess_input
  rw [if_pos hv, labelEncoderTransform_eq_some hc, labelEncoderTransform_eq_some hf]
  exact ⟨_, rfl⟩

/-- Anything `Service.predict` returns successfully is a clamped, rounded
regressor output. -/
theorem Service.predict_ok_shape {m : List Rat → Rat} {year : Int} {fe gg : Rat}
    {c f : String} {r : Service.PredictResult}
    (h : Service.predict m year fe gg c f = .ok r) :
    ∃ p, r.predicted_graduation_rate = pyRound2 (max 0 (min 100 p)) := by
  simp only [Service.predict] at h
  split at h
  · split at h
    · simp at h
    · rename_i scaled cc fc heq
      cases h
      exact ⟨_, rfl⟩
  · simp at h

/-- A successful `/predict` response passed Pydantic validation and came out
of the handler body. -/
theorem MainAPI.endpoint_ok_handler {m : List Rat → Rat} {req : MainAPI.RawRequest}
    {o : MainAPI.Output} (h : MainAPI.endpoint m req = .ok o) :
    MainAPI.pydanticValidate req = [] ∧
    MainAPI.predict_graduation_rate m req = .ok o := by
  unfold MainAPI.endpoint at h
  split at h
  · rename_i heq
    refine ⟨heq, ?_⟩
    split at h
    · rename_i o' ho
      cases h
      exact ho
    · simp at h
  · simp at h

/-- Anything the handler returns successfully has the clamped-rounded rate
and the confidence label derived from year and gender-gap index. -/
theorem MainAPI.handler_ok_shape {m : List Rat → Rat} {req : MainAPI.RawRequest}
    {o : MainAPI.Output} (h : MainAPI.predict_graduation_rate m req = .ok o) :
    ∃ cc fc p,
      o = { predicted_graduation_rate := pyRound2 (max 0 (min 100 p))
            country_encoded := cc
            stem_field_encoded := fc
            model_confidence := MainAPI.confidence_score req.year req.gender_gap_index
            country_name := req.country
            stem_field_name := req.stem_field } := by
  simp only [MainAPI.predict_graduation_rate] at h
  split at h
  · simp at h
  · split at h
    · simp at h
    · split at h
      · rename_i cc fc heq1 heq2
        cases h
        exact ⟨cc, fc, _, rfl⟩
      · simp at h

/-- A request failing validation is rejected before any preprocessing, with
the first failing check's message, for every regressor. -/
theorem Service.predict_invalid {year : Int} {fe gg : Rat} {c f : String}
    (h : (Service.validate_input year fe gg c f).1 = false) :
    ∀ m, Service.predict m year fe gg c f =
      .error (Service.validate_input year fe gg c f).2 := by
  intro m
  simp [Service.predict, h]

/-! ## Claim theorems -/

/-- C8: the overall status computed by `health_check` is always exactly one
of "healthy" and "degraded": "degraded" iff any of the model/encoder/scaler
readiness booleans is false, "healthy" iff all are true. -/
theorem health_status_dichotomy (c : MainAPI.Components) :
    (MainAPI.health_check c = "healthy" ∨ MainAPI.health_check c = "degraded") ∧
    (MainAPI.health_check c = "degraded" ↔
      ¬(c.model_loaded = true ∧ (c.country_encoder_ready = true ∧
        c.field_encoder_ready = true) ∧ c.scaler_ready = true)) ∧
    (MainAPI.health_check c = "healthy" ↔
      (c.model_loaded = true ∧ (c.country_encoder_ready = true ∧
        c.field_encoder_ready = true) ∧ c.scaler_ready = true)) := by
  obtain ⟨m, ce, fe, sc⟩ := c
  cases m <;> cases ce <;> cases fe <;> cases sc <;>
    simp [MainAPI.health_check, MainAPI.ready_for_predictions]

/-- C2 (code-bug evidence): with the model artifact missing, `main.py`'s
loader substitutes a fallback `SGDRegressor` fitted on random dummy data,
after which every component flag is set, `/health` reports "healthy" (not
"degraded"), and the `/predict` handler happily serves results from the
substitute regressor; `prediction.py`'s loader, by contrast, fails fast. -/
theorem missing_model_fallback_behavior :
    MainAPI.load_model_and_encoders false = Service.ModelSource.fallbackRandomFit ∧
    MainAPI.health_check (MainAPI.components_after_startup false) = "healthy" ∧
    (∃ o, MainAPI.predict_graduation_rate (fun _ => 42)
        { year := 2024, female_enrollment_percent := 45, gender_gap_index := 1,
          country := "India", stem_field := "Biology" } = .ok o) ∧
    Service.load_model false =
      Except.error "Model file not found: model/best_model.pkl" := by
  refine ⟨rfl, rfl, ?_, rfl⟩
  exact MainAPI.handler_ok _ _ (by decide) (by decide)

/-- C9: the two pipelines pin different country sets (11 labels in `main.py`
with "United States", 6 in `prediction.py` with "USA" instead), so
"United States" passes `main.py`'s validator but is rejected by
`STEMPredictionService.validate_input`, and the shared label "India"
receives code 6 in one pipeline and code 4 in the other. -/
theorem divergent_country_sets :
    MainAPI.COUNTRIES.length = 11 ∧ Service.countries.length = 6 ∧
    "United States" ∈ MainAPI.COUNTRIES ∧ "United States" ∉ Service.countries ∧
    MainAPI.validate_country "United States" = .ok "United States" ∧
    Service.validate_input 2024 50 1 "United States" "Biology" =
      (false, Service.countryMsg "United States") ∧
    labelEncoderTransform (labelEncoderFit MainAPI.COUNTRIES) "India" = some 6 ∧
    labelEncoderTransform (labelEncoderFit Service.countries) "India" = some 4 ∧
    labelEncoderTransform (labelEncoderFit MainAPI.COUNTRIES) "India" ≠
      labelEncoderTransform (labelEncoderFit Service.countries) "India" := by
  refine ⟨by decide, by decide, by decide, by decide, by rfl, ?_, by decide,
    by decide, by decide⟩
  unfold Service.validate_input
  rw [if_neg (by norm_num), if_neg (by norm_num), if_neg (by norm_num),
    if_pos (by decide)]

/-- C1: every successful prediction of either pipeline carries a
`predicted_graduation_rate` in [0, 100], whatever raw value the regressor
returned: the raw output is clamped to [0, 100] before rounding. -/
theorem predicted_rate_within_bounds :
    (∀ (m : List Rat → Rat) (year : Int) (fe gg : Rat) (c f : String)
       (r : Service.PredictResult),
       Service.predict m year fe gg c f = .ok r →
       0 ≤ r.predicted_graduation_rate ∧ r.predicted_graduation_rate ≤ 100) ∧
    (∀ (m : List Rat → Rat) (req : MainAPI.RawRequest) (o : MainAPI.Output),
       MainAPI.endpoint m req = .ok o →
       0 ≤ o.predicted_graduation_rate ∧ o.predicted_graduation_rate ≤ 100) := by
  constructor
  · intro m year fe gg c f r h
    obtain ⟨p, hp⟩ := Service.predict_ok_shape h
    rw [hp]
    exact pyRound2_clamp_bounds p
  · intro m req o h
    obtain ⟨cc, fc, p, rfl⟩ := MainAPI.handler_ok_shape (MainAPI.endpoint_ok_handler h).2
    exact pyRound2_clamp_bounds p

theorem predicted_rate_within_bounds_witness :
    0 ≤ pyRound2 (max 0 (min 100 150)) ∧ pyRound2 (max 0 (min 100 150)) ≤ 100 := by
  have hv : Service.validate_input 2024 45 1 "India" "Biology" = (true, "") := by
    unfold Service.validate_input
    rw [if_neg (by norm_num), if_neg (by norm_num), if_neg (by norm_num),
      if_neg (by decide), if_neg (by decide)]
  have h : Service.predict (fun _ => 150) 2024 45 1 "India" "Biology" =
      .ok { predicted_graduation_rate := pyRound2 (max 0 (min 100 150))
            country_encoded := 4
            stem_field_encoded := 0 } := by
    simp only [Service.predict, Service.preprocess_input, hv,
      show labelEncoderTransform (labelEncoderFit Service.countries) "India" =
        some 4 from by decide,
      show labelEncoderTransform (labelEncoderFit Service.stem_fields) "Biology" =
        some 0 from by decide]
    rfl
  exact predicted_rate_within_bounds.1 (fun _ => 150) 2024 45 1 "India" "Biology" _ h


/-- C3: for every successful prediction the confidence label is "medium"
exactly when `year > 2025` or `genderGapIndex < 0.5`, and "high" otherwise;
a single label is produced even when both conditions hold. -/
theorem confidence_label_rule (m : List Rat → Rat) (req : MainAPI.RawRequest)
    (o : MainAPI.Output) (h : MainAPI.endpoint m req = .ok o) :
    (o.model_confidence = "medium" ↔
      (2025 < req.year ∨ req.gender_gap_index < 0.5)) ∧
    (o.model_confidence = "high" ↔
      ¬(2025 < req.year ∨ req.gender_gap_index < 0.5)) := by
  obtain ⟨cc, fc, p, rfl⟩ := MainAPI.handler_ok_shape (MainAPI.endpoint_ok_handler h).2
  have hne : ("medium" : String) ≠ "high" := by decide
  simp only [MainAPI.confidence_score]
  split_ifs with h1 h2
  · simp [Or.inr h1, hne]
  · simp [Or.inl h2, hne]
  · have hcond : ¬(2025 < req.year ∨ req.gender_gap_index < 0.5) := by
      rintro (hy | hg)
      · exact h2 hy
      · exact h1 hg
    simp [hcond, hne.symm]

theorem confidence_label_rule_witness :
    ({ predicted_graduation_rate := pyRound2 (max 0 (min 100 42))
       country_encoded := 6
       stem_field_encoded := 0
       model_confidence := MainAPI.confidence_score 2028 0.3
       country_name := "India"
       stem_field_name := "Biology" } : MainAPI.Output).model_confidence =
      "medium" := by
  have hval : MainAPI.pydanticValidate
      { year := 2028, female_enrollment_percent := 45, gender_gap_index := 0.3,
        country := "India", stem_field := "Biology" } = [] := by
    unfold MainAPI.pydanticValidate MainAPI.validate_country MainAPI.validate_stem_field
    rw [if_pos (by norm_num), if_pos (by norm_num), if_pos (by norm_num),
      if_neg (by decide), if_neg (by decide)]
    rfl
  have h : MainAPI.endpoint (fun _ => 42)
      { year := 2028, female_enrollment_percent := 45, gender_gap_index := 0.3,
        country := "India", stem_field := "Biology" } =
      .ok { predicted_graduation_rate := pyRound2 (max 0 (min 100 42))
            country_encoded := 6
            stem_field_encoded := 0
            model_confidence := MainAPI.confidence_score 2028 0.3
            country_name := "India"
            stem_field_name := "Biology" } := by
    simp only [MainAPI.endpoint, MainAPI.predict_graduation_rate, hval,
      show labelEncoderTransform (labelEncoderFit MainAPI.COUNTRIES) "India" =
        some 6 from by decide,
      show labelEncoderTransform (labelEncoderFit MainAPI.STEM_FIELDS) "Biology" =
        some 0 from by decide,
      show ("India" ∈ MainAPI.COUNTRIES) = True from by decide,
      show ("Biology" ∈ MainAPI.STEM_FIELDS) = True from by decide]
    rfl
  exact (confidence_label_rule (fun _ => 42) _ _ h).1.mpr (Or.inl (by norm_num))

/-- C10: `STEMPredictionService.validate_input` has first-failure semantics
in the fixed order year, enrollment, gap index, country, field: the reported
message names only the first violated constraint, and `(true, "")` is
returned exactly when all five constraints hold. -/
theorem validate_input_first_failure (year : Int) (fe gg : Rat) (c f : String) :
    (¬(2000 ≤ year ∧ year ≤ 2030) →
      Service.validate_input year fe gg c f = (false, Service.yearMsg)) ∧
    ((2000 ≤ year ∧ year ≤ 2030) → ¬(0 ≤ fe ∧ fe ≤ 100) →
      Service.validate_input year fe gg c f = (false, Service.enrollMsg)) ∧
    ((2000 ≤ year ∧ year ≤ 2030) → (0 ≤ fe ∧ fe ≤ 100) → ¬(0 ≤ gg ∧ gg ≤ 1) →
      Service.validate_input year fe gg c f = (false, Service.gapMsg)) ∧
    ((2000 ≤ year ∧ year ≤ 2030) → (0 ≤ fe ∧ fe ≤ 100) → (0 ≤ gg ∧ gg ≤ 1) →
      c ∉ Service.countries →
      Service.validate_input year fe gg c f = (false, Service.countryMsg c)) ∧
    ((2000 ≤ year ∧ year ≤ 2030) → (0 ≤ fe ∧ fe ≤ 100) → (0 ≤ gg ∧ gg ≤ 1) →
      c ∈ Service.countries → f ∉ Service.stem_fields →
      Service.validate_input year fe gg c f = (false, Service.fieldMsg f)) ∧
    (Service.validate_input year fe gg c f = (true, "") ↔
      ((2000 ≤ year ∧ year ≤ 2030) ∧ (0 ≤ fe ∧ fe ≤ 100) ∧ (0 ≤ gg ∧ gg ≤ 1) ∧
        c ∈ Service.countries ∧ f ∈ Service.stem_fields)) := by
  unfold Service.validate_input
  split_ifs with h1 h2 h3 h4 h5 <;> simp_all

theorem validate_input_first_failure_witness :
    Service.validate_input 1999 200 5 "Mars" "Alchemy" =
      (false, Service.yearMsg) :=
  (validate_input_first_failure 1999 200 5 "Mars" "Alchemy").1 (by decide)

/-- C5: a request with year, enrollment or gap index out of range is
rejected by both pipelines with the corresponding range error, and neither
encoding nor scaling nor inference happens: the outcome is the same for
every regressor function. -/
theorem out_of_range_rejected :
    (∀ (m : List Rat → Rat) (year : Int) (fe gg : Rat) (c f : String),
      (¬(2000 ≤ year ∧ year ≤ 2030) ∨ ¬(0 ≤ fe ∧ fe ≤ 100) ∨
        ¬(0 ≤ gg ∧ gg ≤ 1)) →
      Service.predict m year fe gg c f =
        .error (Service.validate_input year fe gg c f).2 ∧
      (Service.validate_input year fe gg c f).2 ∈
        [Service.yearMsg, Service.enrollMsg, Service.gapMsg] ∧
      ∀ m', Service.predict m' year fe gg c f = Service.predict m year fe gg c f) ∧
    (∀ (m : List Rat → Rat) (req : MainAPI.RawRequest),
      (¬(2000 ≤ req.year ∧ req.year ≤ 2030) ∨
       ¬(0 ≤ req.female_enrollment_percent ∧ req.female_enrollment_percent ≤ 100) ∨
       ¬(0 ≤ req.gender_gap_index ∧ req.gender_gap_index ≤ 1)) →
      MainAPI.pydanticValidate req ≠ [] ∧
      MainAPI.endpoint m req =
        .error (.validationErrors (MainAPI.pydanticValidate req)) ∧
      ∀ m', MainAPI.endpoint m' req = MainAPI.endpoint m req) := by
  constructor
  · intro m year fe gg c f h
    have hval : (Service.validate_input year fe gg c f).1 = false ∧
        (Service.validate_input year fe gg c f).2 ∈
          [Service.yearMsg, Service.enrollMsg, Service.gapMsg] := by
      unfold Service.validate_input
      split_ifs with h1 h2 h3 h4 h5 <;> simp_all
    exact ⟨Service.predict_invalid hval.1 m, hval.2,
      fun m' => (Service.predict_invalid hval.1 m').trans
        (Service.predict_invalid hval.1 m).symm⟩
  · intro m req h
    have hne : MainAPI.pydanticValidate req ≠ [] := by
      unfold MainAPI.pydanticValidate
      rcases h with h | h | h <;> rw [if_neg h] <;> simp
    obtain ⟨e, es, hcons⟩ : ∃ e es, MainAPI.pydanticValidate req = e :: es := by
      cases hl : MainAPI.pydanticValidate req with
      | nil => exact absurd hl hne
      | cons e es => exact ⟨e, es, rfl⟩
    refine ⟨hne, ?_, ?_⟩
    · unfold MainAPI.endpoint
      rw [hcons]
    · intro m'
      unfold MainAPI.endpoint
      rw [hcons]

theorem out_of_range_rejected_witness :
    Service.predict (fun _ => 0) 2031 50 1 "India" "Biology" =
      .error (Service.validate_input 2031 50 1 "India" "Biology").2 ∧
    (Service.validate_input 2031 50 1 "India" "Biology").2 ∈
      [Service.yearMsg, Service.enrollMsg, Service.gapMsg] ∧
    ∀ m', Service.predict m' 2031 50 1 "India" "Biology" =
      Service.predict (fun _ => 0) 2031 50 1 "India" "Biology" :=
  out_of_range_rejected.1 (fun _ => 0) 2031 50 1 "India" "Biology"
    (Or.inl (by decide))

/-- C6 counterexample: the request (year 1999, country "Mars") has a country
outside the pinned set, yet `STEMPredictionService` rejects it with the
year-range message, which neither names "Mars" nor lists the valid country
set — so the claim, read over all requests with an unsupported category, is
false for this pipeline. -/
theorem unsupported_category_counterexample :
    "Mars" ∉ Service.countries ∧
    Service.validate_input 1999 50 1 "Mars" "Biology" = (false, Service.yearMsg) ∧
    Service.predict (fun _ => 0) 1999 50 1 "Mars" "Biology" =
      .error Service.yearMsg ∧
    Service.yearMsg ≠ Service.countryMsg "Mars" ∧
    ¬ ("Mars".data <:+: Service.yearMsg.data) := by
  have hval : Service.validate_input 1999 50 1 "Mars" "Biology" =
      (false, Service.yearMsg) := by
    unfold Service.validate_input
    rw [if_pos (by decide)]
  refine ⟨by decide, hval, ?_, by decide, by decide⟩
  have := @Service.predict_invalid 1999 50 1 "Mars" "Biology"
    (by rw [hval]) (fun _ => 0)
  rw [hval] at this
  exact this

/-- C6 amended: when the numeric fields are all within range, an unsupported
country or field is rejected with the message that names the rejected value
and lists the full valid set; `main.py`'s Pydantic schema reports the
category error for its field independently of the other fields, while
`STEMPredictionService.validate_input` only reaches the category checks
after the range checks pass (first-failure order). -/
theorem unsupported_category_reporting :
    (∀ (year : Int) (fe gg : Rat) (c f : String),
      (2000 ≤ year ∧ year ≤ 2030) → (0 ≤ fe ∧ fe ≤ 100) → (0 ≤ gg ∧ gg ≤ 1) →
      c ∉ Service.countries →
      Service.validate_input year fe gg c f = (false, Service.countryMsg c) ∧
      c.data <:+: (Service.countryMsg c).data ∧
      (pyListRepr Service.countries).data <:+: (Service.countryMsg c).data) ∧
    (∀ (year : Int) (fe gg : Rat) (c f : String),
      (2000 ≤ year ∧ year ≤ 2030) → (0 ≤ fe ∧ fe ≤ 100) → (0 ≤ gg ∧ gg ≤ 1) →
      c ∈ Service.countries → f ∉ Service.stem_fields →
      Service.validate_input year fe gg c f = (false, Service.fieldMsg f) ∧
      f.data <:+: (Service.fieldMsg f).data ∧
      (pyListRepr Service.stem_fields).data <:+: (Service.fieldMsg f).data) ∧
    (∀ req : MainAPI.RawRequest, req.country ∉ MainAPI.supported_countries →
      MainAPI.FieldError.valueError "country" (MainAPI.countryErrMsg req.country) ∈
        MainAPI.pydanticValidate req ∧
      req.country.data <:+: (MainAPI.countryErrMsg req.country).data ∧
      (String.intercalate ", " MainAPI.supported_countries).data <:+:
        (MainAPI.countryErrMsg req.country).data) ∧
    (∀ req : MainAPI.RawRequest, req.stem_field ∉ MainAPI.supported_fields →
      MainAPI.FieldError.valueError "stem_field"
          (MainAPI.fieldErrMsg req.stem_field) ∈ MainAPI.pydanticValidate req ∧
      req.stem_field.data <:+: (MainAPI.fieldErrMsg req.stem_field).data ∧
      (String.intercalate ", " MainAPI.supported_fields).data <:+:
        (MainAPI.fieldErrMsg req.stem_field).data) := by
  refine ⟨?_, ?_, ?_, ?_⟩
  · intro year fe gg c f h1 h2 h3 hc
    refine ⟨?_, ?_, ?_⟩
    · unfold Service.validate_input
      rw [if_neg (by simpa using h1), if_neg (by simpa using h2),
        if_neg (by simpa using h3), if_pos hc]
    · exact ⟨"Country \x27".data,
        ("\x27 not supported. Available: " ++ pyListRepr Service.countries).data,
        by simp [Service.countryMsg]⟩
    · exact ⟨("Country \x27" ++ c ++ "\x27 not supported. Available: ").data, [],
        by simp [Service.countryMsg]⟩
  · intro year fe gg c f h1 h2 h3 hc hf
    refine ⟨?_, ?_, ?_⟩
    · unfold Service.validate_input
      rw [if_neg (by simpa using h1), if_neg (by simpa using h2),
        if_neg (by simpa using h3), if_neg (by simpa using hc), if_pos hf]
    · exact ⟨"STEM field \x27".data,
        ("\x27 not supported. Available: " ++ pyListRepr Service.stem_fields).data,
        by simp [Service.fieldMsg]⟩
    · exact ⟨("STEM field \x27" ++ f ++ "\x27 not supported. Available: ").data, [],
        by simp [Service.fieldMsg]⟩
  · intro req hc
    refine ⟨?_, ?_, ?_⟩
    · unfold MainAPI.pydanticValidate MainAPI.validate_country
      rw [if_pos hc]
      simp
    · exact ⟨"Country \x27".data,
        ("\x27 is not supported. Supported countries: " ++
          String.intercalate ", " MainAPI.supported_countries ++
          ". Use the /countries endpoint to get the complete list.").data,
        by simp [MainAPI.countryErrMsg]⟩
    · exact ⟨("Country \x27" ++ req.country ++
          "\x27 is not supported. Supported countries: ").data,
        ". Use the /countries endpoint to get the complete list.".data,
        by simp [MainAPI.countryErrMsg]⟩
  · intro req hf
    refine ⟨?_, ?_, ?_⟩
    · unfold MainAPI.pydanticValidate MainAPI.validate_stem_field
      rw [if_pos hf]
      simp
    · exact ⟨"STEM field \x27".data,
        ("\x27 is not supported. Supported fields: " ++
          String.intercalate ", " MainAPI.supported_fields ++
          ". Use the /stem-fields endpoint to get the complete list.").data,
        by simp [MainAPI.fieldErrMsg]⟩
    · exact ⟨("STEM field \x27" ++ req.stem_field ++
          "\x27 is not supported. Supported fields: ").data,
        ". Use the /stem-fields endpoint to get the complete list.".data,
        by simp [MainAPI.fieldErrMsg]⟩

theorem unsupported_category_reporting_witness :
    Service.validate_input 2024 50 1 "Mars" "Biology" =
      (false, Service.countryMsg "Mars") ∧
    "Mars".data <:+: (Service.countryMsg "Mars").data ∧
    (pyListRepr Service.countries).data <:+: (Service.countryMsg "Mars").data :=
  unsupported_category_reporting.1 2024 50 1 "Mars" "Biology"
    (by decide) (by norm_num) (by norm_num) (by decide)

/-- C7: validation checks category membership against the same pinned sets
the encoders were fitted on, so for validated input the encoder cannot fail
and the pipeline always produces a prediction, for every regressor. -/
theorem validated_input_encodes :
    (∀ (year : Int) (fe gg : Rat) (c f : String),
      (Service.validate_input year fe gg c f).1 = true →
      (∃ cc, labelEncoderTransform (labelEncoderFit Service.countries) c = some cc) ∧
      (∃ fc, labelEncoderTransform (labelEncoderFit Service.stem_fields) f = some fc) ∧
      ∀ m, ∃ r, Service.predict m year fe gg c f = .ok r) ∧
    (∀ (m : List Rat → Rat) (req : MainAPI.RawRequest),
      req.country ∈ MainAPI.COUNTRIES → req.stem_field ∈ MainAPI.STEM_FIELDS →
      (∃ cc, labelEncoderTransform (labelEncoderFit MainAPI.COUNTRIES) req.country =
        some cc) ∧
      (∃ fc, labelEncoderTransform (labelEncoderFit MainAPI.STEM_FIELDS) req.stem_field =
        some fc) ∧
      ∃ o, MainAPI.predict_graduation_rate m req = .ok o) := by
  constructor
  · intro year fe gg c f hv
    obtain ⟨-, -, -, hc, hf⟩ := (Service.validate_input_true_iff year fe gg c f).mp hv
    exact ⟨⟨_, labelEncoderTransform_eq_some hc⟩,
      ⟨_, labelEncoderTransform_eq_some hf⟩,
      fun m => Service.predict_ok m year fe gg c f hv⟩
  · intro m req hc hf
    exact ⟨⟨_, labelEncoderTransform_eq_some hc⟩,
      ⟨_, labelEncoderTransform_eq_some hf⟩, MainAPI.handler_ok m req hc hf⟩

theorem validated_input_encodes_witness :
    (∃ cc, labelEncoderTransform (labelEncoderFit Service.countries) "USA" = some cc) ∧
    (∃ fc, labelEncoderTransform (labelEncoderFit Service.stem_fields) "Mathematics" =
      some fc) ∧
    ∀ m, ∃ r, Service.predict m 2024 50 1 "USA" "Mathematics" = .ok r :=
  validated_input_encodes.1 2024 50 1 "USA" "Mathematics" (by
    unfold Service.validate_input
    rw [if_neg (by norm_num), if_neg (by norm_num), if_neg (by norm_num),
      if_neg (by decide), if_neg (by decide)])

/-- C4: the encoder code of a label in a fixed category set is the
zero-based index of the label in the lexicographically sorted set; fitting
is insensitive to insertion order (any permutation of the labels fits to the
same classes), and the code equals the label's alphabetical rank — the
number of distinct labels strictly below it. -/
theorem encoder_alphabetical_rank (s s' : List String) (v : String)
    (hperm : s.Perm s') (hv : v ∈ s) :
    labelEncoderFit s = labelEncoderFit s' ∧
    (labelEncoderFit s).Sorted strle ∧
    labelEncoderTransform (labelEncoderFit s) v =
      some ((labelEncoderFit s).indexOf v) ∧
    labelEncoderTransform (labelEncoderFit s') v =
      labelEncoderTransform (labelEncoderFit s) v ∧
    (labelEncoderFit s).indexOf v =
      s.dedup.countP (fun w => decide (strlt w v)) := by
  have heq := labelEncoderFit_perm_eq hperm
  refine ⟨heq, labelEncoderFit_sorted s, labelEncoderTransform_eq_some hv,
    by rw [heq], ?_⟩
  rw [indexOf_sorted_eq_countP (labelEncoderFit_sorted_strlt s)
    (mem_labelEncoderFit.mpr hv)]
  exact (labelEncoderFit_perm s).countP_eq _

theorem encoder_alphabetical_rank_witness :
    labelEncoderFit Service.countries =
      labelEncoderFit ["USA", "India", "Germany", "China", "Canada", "Australia"] ∧
    (labelEncoderFit Service.countries).Sorted strle ∧
    labelEncoderTransform (labelEncoderFit Service.countries) "India" =
      some ((labelEncoderFit Service.countries).indexOf "India") ∧
    labelEncoderTransform
        (labelEncoderFit ["USA", "India", "Germany", "China", "Canada", "Australia"])
        "India" =
      labelEncoderTransform (labelEncoderFit Service.countries) "India" ∧
    (labelEncoderFit Service.countries).indexOf "India" =
      Service.countries.dedup.countP (fun w => decide (strlt w "India")) :=
  encoder_alphabetical_rank Service.countries
    ["USA", "India", "Germany", "China", "Canada", "Australia"] "India"
    (by decide) (by decide)

end LinRegModel
